import Mathlib

/-!
Shallow embedding of the multi-agent orchestration core of `src/app.py`
(classes `Message`, `Task`, `BaseAgent` with its four subclasses, and
`AgentRegistry`).  Python's in-place mutation is modelled by explicit state
passing: each operation returns the updated objects next to its Python
return value.  Python `Dict[str, Any]` payloads are modelled as
insertion-ordered association lists over a `Value` type of JSON-like data.
-/

set_option autoImplicit false

namespace MultiAgent

/-- JSON-like values standing for Python's `Any` in payload dictionaries:
strings, ints, booleans, floats (modelled exactly as rationals; the only
literal in the source is `0.85`), and nested dicts. -/
inductive Value where
  | vStr : String → Value
  | vInt : Int → Value
  | vBool : Bool → Value
  | vRat : Rat → Value
  | vDict : List (String × Value) → Value

/-- Python `Dict[str, Any]`: an insertion-ordered association list. -/
abbrev Dict := List (String × Value)

/-- Python `dict.get(key, default)`: value at the first matching key,
else the default. -/
def dictGet (d : Dict) (k : String) (dflt : Value) : Value :=
  match d.find? (fun p => p.1 = k) with
  | some p => p.2
  | none => dflt

/-- Python `str(value)` as used inside the f-strings of the action
handlers.  Payload parameters fed to those f-strings are strings in every
workflow of the source; the rendering of the other variants abstracts
CPython's `repr`-based formatting, and no specified property depends on
that text. -/
def Value.pyStr : Value → String
  | .vStr s => s
  | .vInt n => toString n
  | .vBool b => if b then "True" else "False"
  | .vRat q => toString q
  | .vDict _ => "\x7b...\x7d"

/-- `class AgentType(Enum)` (src/app.py lines 26-31). -/
inductive AgentType where
  | researcher
  | analyzer
  | planner
  | executor
deriving DecidableEq, Repr

/-- The `.value` string of each `AgentType` member. -/
def AgentType.value : AgentType → String
  | .researcher => "researcher"
  | .analyzer => "analyzer"
  | .planner => "planner"
  | .executor => "executor"

/-- `class MessageType(Enum)` (src/app.py lines 34-40). -/
inductive MessageType where
  | query
  | response
  | delegation
  | feedback
  | status
deriving DecidableEq, Repr

/-- `@dataclass Message` (src/app.py lines 43-52).  The
`default_factory` ids and timestamps are nondeterministic inputs
(uuid/clock), so they are plain fields here, supplied by the caller. -/
structure Message where
  message_id : String
  message_type : MessageType
  sender_id : String
  receiver_id : String
  content : Dict
  timestamp : String
  priority : Int

/-- `@dataclass Task` (src/app.py lines 67-76).  `status` is a plain
string in the source (`"pending"`, `"running"`, `"completed"`,
`"failed"`), and `result: Optional[Dict]` defaults to `None`. -/
structure Task where
  task_id : String
  agent_id : String
  action : String
  parameters : Dict
  status : String
  created_at : String
  result : Option Dict

/-- The mutable state of a `BaseAgent` (src/app.py lines 82-89), with the
subclass fields flattened in: `data_sources` exists only on
`ResearchAgent` (line 150) and `execution_count` only on `ExecutionAgent`
(line 213); for the other variants they stay at their initial value and
are never read. -/
structure Agent where
  agent_id : String
  agent_type : AgentType
  message_queue : List Message
  knowledge_base : Dict
  task_history : List Task
  is_active : Bool
  data_sources : List Value
  execution_count : Int

/-- `BaseAgent.__init__` (src/app.py lines 82-89): empty queue, empty
knowledge base, empty history, active. -/
def BaseAgent.init (agent_id : String) (agent_type : AgentType) : Agent :=
  { agent_id := agent_id
    agent_type := agent_type
    message_queue := []
    knowledge_base := []
    task_history := []
    is_active := true
    data_sources := []
    execution_count := 0 }

/-- `ResearchAgent.__init__` (src/app.py lines 148-150). -/
def ResearchAgent.init (agent_id : String) : Agent :=
  BaseAgent.init agent_id AgentType.researcher

/-- `AnalysisAgent.__init__` (src/app.py lines 169-170). -/
def AnalysisAgent.init (agent_id : String) : Agent :=
  BaseAgent.init agent_id AgentType.analyzer

/-- `PlanningAgent.__init__` (src/app.py lines 190-191). -/
def PlanningAgent.init (agent_id : String) : Agent :=
  BaseAgent.init agent_id AgentType.planner

/-- `ExecutionAgent.__init__` (src/app.py lines 211-213). -/
def ExecutionAgent.init (agent_id : String) : Agent :=
  BaseAgent.init agent_id AgentType.executor

/-- `BaseAgent.receive_message` (src/app.py lines 91-95): append the
message to `message_queue` only when `message.receiver_id` equals this
agent's id; otherwise do nothing. -/
def Agent.receiveMessage (a : Agent) (m : Message) : Agent :=
  if m.receiver_id = a.agent_id then
    { a with message_queue := a.message_queue ++ [m] }
  else
    a

/-- `BaseAgent.shutdown` (src/app.py lines 139-142): set `is_active`
to `False`. -/
def Agent.shutdown (a : Agent) : Agent :=
  { a with is_active := false }

/-- `BaseAgent.get_status` (src/app.py lines 128-137). -/
def Agent.getStatus (a : Agent) : Dict :=
  [ ("agent_id", Value.vStr a.agent_id)
  , ("agent_type", Value.vStr a.agent_type.value)
  , ("is_active", Value.vBool a.is_active)
  , ("message_queue_size", Value.vInt a.message_queue.length)
  , ("task_history_count", Value.vInt a.task_history.length)
  , ("knowledge_base_size", Value.vInt a.knowledge_base.length) ]

/-- `ResearchAgent._perform_action` (src/app.py lines 152-163).  The
handlers can in general raise (modelled as `Except.error`) and mutate
their agent, so they return `Except String (Dict × Agent)`; this concrete
one always succeeds and leaves the agent untouched. -/
def ResearchAgent.performAction (a : Agent) (action : String)
    (parameters : Dict) : Except String (Dict × Agent) :=
  if action = "gather_data" then
    let topic := dictGet parameters "topic" (Value.vStr "")
    Except.ok
      ( [ ("action", Value.vStr "gather_data")
        , ("topic", topic)
        , ("data", Value.vStr ("Research data for " ++ topic.pyStr))
        , ("sources", Value.vInt 5) ]
      , a )
  else
    Except.ok ([("action", Value.vStr action), ("status", Value.vStr "unknown_action")], a)

/-- `AnalysisAgent._perform_action` (src/app.py lines 172-184). -/
def AnalysisAgent.performAction (a : Agent) (action : String)
    (parameters : Dict) : Except String (Dict × Agent) :=
  if action = "analyze_data" then
    let depth := dictGet parameters "depth" (Value.vStr "basic")
    Except.ok
      ( [ ("action", Value.vStr "analyze_data")
        , ("insights", Value.vStr ("Key insights from " ++ depth.pyStr ++ " analysis"))
        , ("patterns", Value.vInt 3)
        , ("confidence_score", Value.vRat (17 / 20)) ]
      , a )
  else
    Except.ok ([("action", Value.vStr action), ("status", Value.vStr "unknown_action")], a)

/-- `PlanningAgent._perform_action` (src/app.py lines 193-205). -/
def PlanningAgent.performAction (a : Agent) (action : String)
    (parameters : Dict) : Except String (Dict × Agent) :=
  if action = "create_strategy" then
    let timeline := dictGet parameters "timeline" (Value.vStr "1_month")
    Except.ok
      ( [ ("action", Value.vStr "create_strategy")
        , ("timeline", timeline)
        , ("phases", Value.vInt 3)
        , ("milestones", Value.vInt 5)
        , ("resource_requirements", Value.vStr "moderate") ]
      , a )
  else
    Except.ok ([("action", Value.vStr action), ("status", Value.vStr "unknown_action")], a)

/-- `ExecutionAgent._perform_action` (src/app.py lines 215-228): the one
handler with a side effect, incrementing `self.execution_count`. -/
def ExecutionAgent.performAction (a : Agent) (action : String)
    (parameters : Dict) : Except String (Dict × Agent) :=
  if action = "implement_plan" then
    let resources := dictGet parameters "resources" (Value.vStr "basic")
    let a1 := { a with execution_count := a.execution_count + 1 }
    Except.ok
      ( [ ("action", Value.vStr "implement_plan")
        , ("resources", resources)
        , ("execution_count", Value.vInt a1.execution_count)
        , ("completion_percentage", Value.vInt 100)
        , ("status", Value.vStr "completed") ]
      , a1 )
  else
    Except.ok ([("action", Value.vStr action), ("status", Value.vStr "unknown_action")], a)

/-- Virtual dispatch of the abstract `_perform_action` over the four
subclasses of `BaseAgent`. -/
def Agent.performAction (a : Agent) (action : String)
    (parameters : Dict) : Except String (Dict × Agent) :=
  match a.agent_type with
  | .researcher => ResearchAgent.performAction a action parameters
  | .analyzer => AnalysisAgent.performAction a action parameters
  | .planner => PlanningAgent.performAction a action parameters
  | .executor => ExecutionAgent.performAction a action parameters

/-- The single action name each variant's dispatch table recognises
(src/app.py lines 154, 174, 195, 217); anything else falls through to the
`unknown_action` soft result. -/
def Agent.vocabulary : AgentType → List String
  | .researcher => ["gather_data"]
  | .analyzer => ["analyze_data"]
  | .planner => ["create_strategy"]
  | .executor => ["implement_plan"]

/-- Result of `BaseAgent.execute_task`: the returned outcome dict plus the
post-states of the (mutated in place) agent and task. -/
structure ExecResult where
  outcome : Dict
  agent : Agent
  task : Task

/-- `BaseAgent.execute_task` (src/app.py lines 108-121), generic over the
abstract `self._perform_action` (the `handler` argument): set
`task.status = "running"`, run the handler on `(task.action,
task.parameters)`; on success mark the task completed, store the result,
append the task to `task_history` and return
`\x7b'status': 'success', 'result': result\x7d`; on a raised exception
(`Except.error`) mark the task failed and return
`\x7b'status': 'failed', 'error': str(e)\x7d` — the exception is caught,
never propagated (this function is total).  A handler that raises is
modelled as leaving the agent as it found it, which holds of every
handler in the repository (none of them raises at all). -/
def BaseAgent.executeTaskWith
    (handler : Agent → String → Dict → Except String (Dict × Agent))
    (a : Agent) (t : Task) : ExecResult :=
  let t1 := { t with status := "running" }
  match handler a t.action t.parameters with
  | Except.ok (result, a1) =>
      let t2 := { t1 with status := "completed", result := some result }
      { outcome := [("status", Value.vStr "success"), ("result", Value.vDict result)]
        agent := { a1 with task_history := a1.task_history ++ [t2] }
        task := t2 }
  | Except.error e =>
      { outcome := [("status", Value.vStr "failed"), ("error", Value.vStr e)]
        agent := a
        task := { t1 with status := "failed" } }

/-- `BaseAgent.execute_task` as it runs on the four concrete agent
variants of the source. -/
def Agent.executeTask (a : Agent) (t : Task) : ExecResult :=
  BaseAgent.executeTaskWith Agent.performAction a t

/-- Lookup in an insertion-ordered string-keyed map (Python
`self.agents[key]` / `key in self.agents`): the first entry whose key
matches. -/
def lookupAgent : List (String × Agent) → String → Option Agent
  | [], _ => none
  | p :: rest, key => if p.1 = key then some p.2 else lookupAgent rest key

/-- Assignment `self.agents[key] = agent` on an insertion-ordered map:
replace the value at an existing key in place, else append a new entry. -/
def updateAgent : List (String × Agent) → String → Agent → List (String × Agent)
  | [], key, a => [(key, a)]
  | p :: rest, key, a =>
      if p.1 = key then (key, a) :: rest else p :: updateAgent rest key a

/-- The mutable state of `AgentRegistry` (src/app.py lines 234-238).
`agents` is Python's insertion-ordered dict, as an association list. -/
structure AgentRegistry where
  agents : List (String × Agent)
  message_queue : List Message
  task_queue : List Task

/-- `AgentRegistry.__init__` (src/app.py lines 234-238). -/
def AgentRegistry.init : AgentRegistry :=
  { agents := [], message_queue := [], task_queue := [] }

/-- `AgentRegistry.register_agent` (src/app.py lines 240-243):
`self.agents[agent.agent_id] = agent`. -/
def AgentRegistry.registerAgent (r : AgentRegistry) (a : Agent) : AgentRegistry :=
  { r with agents := updateAgent r.agents a.agent_id a }

/-- `AgentRegistry.create_agent` (src/app.py lines 245-261).  The
`uuid.uuid4()[:8]` suffix is a nondeterministic input, passed in as
`fresh`.  A recognised kind builds the matching variant with id
`<kind>_<fresh>`, registers it and returns it; anything else raises
`ValueError` (`Except.error`), leaving the registry untouched. -/
def AgentRegistry.createAgent (r : AgentRegistry) (agent_type : String)
    (fresh : String) : Except String Agent × AgentRegistry :=
  let agent_id := agent_type ++ "_" ++ fresh
  if agent_type = "researcher" then
    let a := ResearchAgent.init agent_id
    (Except.ok a, r.registerAgent a)
  else if agent_type = "analyzer" then
    let a := AnalysisAgent.init agent_id
    (Except.ok a, r.registerAgent a)
  else if agent_type = "planner" then
    let a := PlanningAgent.init agent_id
    (Except.ok a, r.registerAgent a)
  else if agent_type = "executor" then
    let a := ExecutionAgent.init agent_id
    (Except.ok a, r.registerAgent a)
  else
    (Except.error ("Unknown agent type: " ++ agent_type), r)

/-- `AgentRegistry.send_message` (src/app.py lines 263-272): if
`message.receiver_id` is not a key of `agents`, return `False`; else call
the receiver's `receive_message` and return `True`. -/
def AgentRegistry.sendMessage (r : AgentRegistry) (m : Message) :
    Bool × AgentRegistry :=
  match lookupAgent r.agents m.receiver_id with
  | none => (false, r)
  | some receiver =>
      (true, { r with agents := updateAgent r.agents m.receiver_id (receiver.receiveMessage m) })

/-- `AgentRegistry.execute_task` (src/app.py lines 274-283): if
`task.agent_id` is not a key of `agents`, return the `Agent not found`
failure dict without touching anything; else run the agent's
`execute_task` and append the (mutated) task to `task_queue`. -/
def AgentRegistry.executeTask (r : AgentRegistry) (t : Task) :
    Dict × AgentRegistry × Task :=
  match lookupAgent r.agents t.agent_id with
  | none =>
      ([("status", Value.vStr "failed"), ("error", Value.vStr "Agent not found")], r, t)
  | some agent =>
      let res := agent.executeTask t
      ( res.outcome
      , { r with
            agents := updateAgent r.agents t.agent_id res.agent
            task_queue := r.task_queue ++ [res.task] }
      , res.task )

/-- `AgentRegistry.get_agent_status` (src/app.py lines 285-289). -/
def AgentRegistry.getAgentStatus (r : AgentRegistry) (agent_id : String) :
    Option Dict :=
  match lookupAgent r.agents agent_id with
  | none => none
  | some a => some a.getStatus

/-- `AgentRegistry.get_all_agents_status` (src/app.py lines 291-294). -/
def AgentRegistry.getAllAgentsStatus (r : AgentRegistry) : List (String × Dict) :=
  r.agents.map (fun p => (p.1, p.2.getStatus))

/-- `AgentRegistry.shutdown_all` (src/app.py lines 296-300): call
`shutdown` on every registered agent, removing none. -/
def AgentRegistry.shutdownAll (r : AgentRegistry) : AgentRegistry :=
  { r with agents := r.agents.map (fun p => (p.1, p.2.shutdown)) }

/-- Well-formedness maintained by the registry: every entry of `agents`
is stored under its own agent's id (`register_agent` keys the map by
`agent.agent_id`, the only way entries are ever added). -/
def RegistryWF (r : AgentRegistry) : Prop :=
  ∀ p ∈ r.agents, p.2.agent_id = p.1

/-!  Concrete inputs used by witnesses and counterexamples. -/

/-- A handler standing for a subclass `_perform_action` that raises
(e.g. the external generative backend failing). -/
def raisingHandler : Agent → String → Dict → Except String (Dict × Agent) :=
  fun _ _ _ => Except.error "boom"

/-- A task whose `result` field is already populated before execution. -/
def staleTask : Task :=
  { task_id := "t_stale"
    agent_id := "researcher_1"
    action := "gather_data"
    parameters := []
    status := "pending"
    created_at := "2024-01-01T00:00:00"
    result := some [("stale", Value.vInt 1)] }

/-- A freshly constructed task: `status = "pending"`, `result = None`. -/
def pendingTask (aid act : String) : Task :=
  { task_id := "t_1"
    agent_id := aid
    action := act
    parameters := []
    status := "pending"
    created_at := "2024-01-01T00:00:00"
    result := none }

/-- A minimal message addressed to `rid`. -/
def msgTo (rid : String) : Message :=
  { message_id := "m_1"
    message_type := MessageType.query
    sender_id := "sender_1"
    receiver_id := rid
    content := []
    timestamp := "2024-01-01T00:00:00"
    priority := 1 }

/-- A registry holding one researcher agent under its own id. -/
def sampleRegistry : AgentRegistry :=
  AgentRegistry.init.registerAgent (ResearchAgent.init "researcher_1")

/-!  Supporting lemmas about the association-list map operations. -/

theorem lookupAgent_updateAgent_self (l : List (String × Agent)) (k : String)
    (a : Agent) : lookupAgent (updateAgent l k a) k = some a := by
  induction l with
  | nil => simp [updateAgent, lookupAgent]
  | cons p rest ih =>
      by_cases h : p.1 = k <;> simp [updateAgent, lookupAgent, h, ih]

theorem lookupAgent_updateAgent_other (l : List (String × Agent))
    (k k' : String) (a : Agent) (h : k' ≠ k) :
    lookupAgent (updateAgent l k a) k' = lookupAgent l k' := by
  induction l with
  | nil => simp [updateAgent, lookupAgent, Ne.symm h]
  | cons p rest ih =>
      by_cases hp : p.1 = k
      · subst hp
        simp [updateAgent, lookupAgent, Ne.symm h]
      · simp [updateAgent, lookupAgent, hp, ih]

theorem lookupAgent_mem (l : List (String × Agent)) (k : String) (a : Agent)
    (h : lookupAgent l k = some a) : (k, a) ∈ l := by
  induction l with
  | nil => simp [lookupAgent] at h
  | cons p rest ih =>
      by_cases hp : p.1 = k
      · rw [lookupAgent, if_pos hp] at h
        have hpa : p = (k, a) := by
          cases h
          exact Prod.ext hp rfl
        rw [← hpa]
        exact List.mem_cons_self p rest
      · rw [lookupAgent, if_neg hp] at h
        exact List.mem_cons_of_mem p (ih h)

theorem mem_updateAgent (l : List (String × Agent)) (k : String) (a : Agent)
    (p : String × Agent) (hp : p ∈ updateAgent l k a) : p = (k, a) ∨ p ∈ l := by
  induction l with
  | nil =>
      simp [updateAgent] at hp
      exact Or.inl hp
  | cons q rest ih =>
      by_cases hq : q.1 = k
      · rw [updateAgent, if_pos hq] at hp
        rcases List.mem_cons.mp hp with h | h
        · exact Or.inl h
        · exact Or.inr (List.mem_cons_of_mem q h)
      · rw [updateAgent, if_neg hq] at hp
        rcases List.mem_cons.mp hp with h | h
        · exact Or.inr (h ▸ List.mem_cons_self q rest)
        · rcases ih h with h' | h'
          · exact Or.inl h'
          · exact Or.inr (List.mem_cons_of_mem q h')

/-- `register_agent` keeps the registry well-formed: it stores the new
agent under `agent.agent_id` (justifying the `RegistryWF` hypothesis used
for message routing). -/
theorem registerAgent_preserves_wf (r : AgentRegistry) (a : Agent)
    (hwf : RegistryWF r) : RegistryWF (r.registerAgent a) := by
  intro p hp
  rcases mem_updateAgent r.agents a.agent_id a p hp with h | h
  · rw [h]
  · exact hwf p h

/-- C7: `receive_message` appends the message to the agent's queue iff
`message.receiver_id` equals the agent's id; the queue grows by exactly
one on acceptance and by zero on rejection, the rejection is silent (the
function simply returns), and no other agent field changes in either
case. -/
theorem receiveMessage_append_iff (a : Agent) (m : Message) :
    (m.receiver_id = a.agent_id →
      (a.receiveMessage m).message_queue = a.message_queue ++ [m] ∧
      (a.receiveMessage m).message_queue.length = a.message_queue.length + 1 ∧
      (a.receiveMessage m).agent_id = a.agent_id ∧
      (a.receiveMessage m).agent_type = a.agent_type ∧
      (a.receiveMessage m).knowledge_base = a.knowledge_base ∧
      (a.receiveMessage m).task_history = a.task_history ∧
      (a.receiveMessage m).is_active = a.is_active ∧
      (a.receiveMessage m).data_sources = a.data_sources ∧
      (a.receiveMessage m).execution_count = a.execution_count) ∧
    (m.receiver_id ≠ a.agent_id → a.receiveMessage m = a) := by
  constructor <;> intro h <;> simp [Agent.receiveMessage, h]

/-- Witness for C7 at a concrete agent and a matching message. -/
theorem receiveMessage_append_iff_witness :
    (msgTo "researcher_1").receiver_id = (ResearchAgent.init "researcher_1").agent_id ∧
    ((ResearchAgent.init "researcher_1").receiveMessage (msgTo "researcher_1")).message_queue.length
      = (ResearchAgent.init "researcher_1").message_queue.length + 1 :=
  ⟨rfl, ((receiveMessage_append_iff (ResearchAgent.init "researcher_1") (msgTo "researcher_1")).1 rfl).2.1⟩

/-- C9: `shutdown` sets `is_active` to false and changes nothing else,
and is idempotent; `shutdown_all` applies `shutdown` to every registered
agent, so afterwards every entry of the agents map holds an inactive
agent, while the map keeps exactly its keys. -/
theorem shutdown_idempotent_and_shutdownAll (a : Agent) (r : AgentRegistry) :
    Agent.shutdown a = { a with is_active := false } ∧
    Agent.shutdown (Agent.shutdown a) = Agent.shutdown a ∧
    (AgentRegistry.shutdownAll r).agents
      = r.agents.map (fun p => (p.1, Agent.shutdown p.2)) ∧
    ((AgentRegistry.shutdownAll r).agents.all (fun p => !p.2.is_active)) = true ∧
    (AgentRegistry.shutdownAll r).agents.map (fun p => p.1)
      = r.agents.map (fun p => p.1) := by
  refine ⟨rfl, rfl, rfl, ?_, ?_⟩
  · simp [AgentRegistry.shutdownAll, List.all_eq_true, Agent.shutdown]
  · simp [AgentRegistry.shutdownAll]

/-- C10 (implicit): neither `execute_task` nor `receive_message` reads
`is_active` — on a shut-down agent they behave exactly as on the active
one (same outcome, same task transition, same state change apart from the
flag), a task still ends `"completed"` or `"failed"`, and it is still
recorded in `task_history` (the four concrete handlers never raise, so it
always completes and is always recorded). -/
theorem shutdown_does_not_guard_work (a : Agent) (t : Task) (m : Message) :
    (Agent.executeTask (Agent.shutdown a) t).outcome
      = (Agent.executeTask a t).outcome ∧
    (Agent.executeTask (Agent.shutdown a) t).task = (Agent.executeTask a t).task ∧
    (Agent.executeTask (Agent.shutdown a) t).agent
      = Agent.shutdown ((Agent.executeTask a t).agent) ∧
    Agent.receiveMessage (Agent.shutdown a) m
      = Agent.shutdown (Agent.receiveMessage a m) ∧
    ((Agent.executeTask (Agent.shutdown a) t).task.status = "completed" ∨
      (Agent.executeTask (Agent.shutdown a) t).task.status = "failed") ∧
    (Agent.executeTask (Agent.shutdown a) t).agent.task_history
      = a.task_history ++ [(Agent.executeTask (Agent.shutdown a) t).task] := by
  obtain ⟨i, ty, mq, kb, th, ia, ds, ec⟩ := a
  cases ty <;>
    simp only [Agent.executeTask, BaseAgent.executeTaskWith, Agent.performAction,
      ResearchAgent.performAction, AnalysisAgent.performAction,
      PlanningAgent.performAction, ExecutionAgent.performAction,
      Agent.shutdown, Agent.receiveMessage] <;>
    split_ifs <;> simp

/-- C1 as stated is false at this input: a task whose `result` field was
already populated is run by a handler that raises; the exception is
caught and the outcome/status behave as claimed, but `task.result` is
`some` (its old value), not `None` — the failure path of
`execute_task` never writes `result`, it only leaves it alone. -/
theorem executeTask_failure_keeps_stale_result :
    staleTask.status = "pending" ∧
    (BaseAgent.executeTaskWith raisingHandler (ResearchAgent.init "researcher_1") staleTask).outcome
      = [("status", Value.vStr "failed"), ("error", Value.vStr "boom")] ∧
    (BaseAgent.executeTaskWith raisingHandler (ResearchAgent.init "researcher_1") staleTask).task.status
      = "failed" ∧
    (BaseAgent.executeTaskWith raisingHandler (ResearchAgent.init "researcher_1") staleTask).task.result
      = some [("stale", Value.vInt 1)] :=
  ⟨rfl, rfl, rfl, rfl⟩

/-- C1 (amended): for every agent and every task, when the action
handler raises during `execute_task`, the exception is caught (the
embedding of `execute_task` is a total function), the call returns
`\x7b'status': 'failed', 'error': <description>\x7d`, the task's status is
set to `"failed"`, the task's `result` field is left unchanged — hence
still `None` whenever it was unset before the call, as it is for any
freshly constructed task — and the agent is untouched, so in particular
the task is not appended to `task_history`. -/
theorem executeTask_handler_error_contained
    (handler : Agent → String → Dict → Except String (Dict × Agent))
    (a : Agent) (t : Task) (e : String)
    (hraise : handler a t.action t.parameters = Except.error e) :
    (BaseAgent.executeTaskWith handler a t).outcome
      = [("status", Value.vStr "failed"), ("error", Value.vStr e)] ∧
    (BaseAgent.executeTaskWith handler a t).task.status = "failed" ∧
    (BaseAgent.executeTaskWith handler a t).task.result = t.result ∧
    (BaseAgent.executeTaskWith handler a t).agent = a ∧
    (BaseAgent.executeTaskWith handler a t).agent.task_history = a.task_history := by
  simp [BaseAgent.executeTaskWith, hraise]

/-- Witness for C1 (amended) at a raising handler and a fresh pending
task (whose result, being unset before the call, stays unset). -/
theorem executeTask_handler_error_contained_witness :
    raisingHandler (ResearchAgent.init "researcher_1")
        (pendingTask "researcher_1" "gather_data").action
        (pendingTask "researcher_1" "gather_data").parameters
      = Except.error "boom" ∧
    (BaseAgent.executeTaskWith raisingHandler (ResearchAgent.init "researcher_1")
        (pendingTask "researcher_1" "gather_data")).task.status = "failed" ∧
    (BaseAgent.executeTaskWith raisingHandler (ResearchAgent.init "researcher_1")
        (pendingTask "researcher_1" "gather_data")).task.result
      = (pendingTask "researcher_1" "gather_data").result :=
  ⟨rfl,
    (executeTask_handler_error_contained raisingHandler
      (ResearchAgent.init "researcher_1")
      (pendingTask "researcher_1" "gather_data") "boom" rfl).2.1,
    (executeTask_handler_error_contained raisingHandler
      (ResearchAgent.init "researcher_1")
      (pendingTask "researcher_1" "gather_data") "boom" rfl).2.2.1⟩

/-- C2 as stated is false at this input: `execute_task` never compares
`task.agent_id` with the agent's id.  Here the agent is `"agent_a"`, the
task is addressed to `"agent_b"` (the ids differ, witnessed by the
decidable comparison), yet running the task grows the agent's
`task_history` from 0 to 1 entries. -/
theorem executeTask_mutates_on_foreign_task :
    ((pendingTask "agent_b" "gather_data").agent_id
        == (ResearchAgent.init "agent_a").agent_id) = false ∧
    (ResearchAgent.init "agent_a").task_history.length = 0 ∧
    ((ResearchAgent.init "agent_a").executeTask
        (pendingTask "agent_b" "gather_data")).agent.task_history.length = 1 := by
  refine ⟨by decide, rfl, rfl⟩

/-- C2 (amended): `execute_task` performs no ownership check, behaving
identically whether or not `task.agent_id` matches the agent's id.  Of
the claimed frame conditions only `knowledge_base` is really preserved;
`task_history` gains the executed task even on a mismatched `agent_id`
(the four concrete handlers always succeed, so the append always
happens). -/
theorem executeTask_no_ownership_check (a : Agent) (t : Task)
    (hmm : t.agent_id ≠ a.agent_id) :
    (a.executeTask t).agent.knowledge_base = a.knowledge_base ∧
    (a.executeTask t).agent.task_history
      = a.task_history ++ [(a.executeTask t).task] := by
  obtain ⟨i, ty, mq, kb, th, ia, ds, ec⟩ := a
  cases ty <;>
    simp only [Agent.executeTask, BaseAgent.executeTaskWith, Agent.performAction,
      ResearchAgent.performAction, AnalysisAgent.performAction,
      PlanningAgent.performAction, ExecutionAgent.performAction] <;>
    split_ifs <;> simp

/-- Witness for C2 (amended) at an agent and a task with differing ids. -/
theorem executeTask_no_ownership_check_witness :
    (pendingTask "agent_b" "gather_data").agent_id
        ≠ (ResearchAgent.init "agent_a").agent_id ∧
    ((ResearchAgent.init "agent_a").executeTask
        (pendingTask "agent_b" "gather_data")).agent.task_history
      = (ResearchAgent.init "agent_a").task_history
          ++ [((ResearchAgent.init "agent_a").executeTask
                (pendingTask "agent_b" "gather_data")).task] :=
  ⟨by decide,
    (executeTask_no_ownership_check (ResearchAgent.init "agent_a")
      (pendingTask "agent_b" "gather_data") (by decide)).2⟩

/-- C3 as stated is false at this input: a task that is `"pending"` but
whose `result` field was already populated, run by a raising handler,
ends with status `"failed"` while `result` is still set — breaking
"`result` is non-None iff status is `'completed'`", because the failure
path of `execute_task` does not clear `result`. -/
theorem executeTask_failed_with_result_set :
    staleTask.status = "pending" ∧
    (BaseAgent.executeTaskWith raisingHandler (AnalysisAgent.init "analyzer_1") staleTask).task.status
      = "failed" ∧
    (BaseAgent.executeTaskWith raisingHandler (AnalysisAgent.init "analyzer_1") staleTask).task.result.isSome
      = true :=
  ⟨rfl, rfl, rfl⟩

/-- C3 (amended): for a task that is `"pending"` with its `result` still
unset (as the data-model invariant guarantees for pending tasks), after
`execute_task` — under any action handler — the status is `"completed"`
or `"failed"`, never `"pending"` or `"running"`, and `result` is set iff
the status is `"completed"`. -/
theorem executeTask_terminal_status (handler : Agent → String → Dict → Except String (Dict × Agent))
    (a : Agent) (t : Task)
    (_hp : t.status = "pending") (hres : t.result = none) :
    ((BaseAgent.executeTaskWith handler a t).task.status = "completed" ∨
      (BaseAgent.executeTaskWith handler a t).task.status = "failed") ∧
    ((BaseAgent.executeTaskWith handler a t).task.result.isSome = true ↔
      (BaseAgent.executeTaskWith handler a t).task.status = "completed") := by
  cases h : handler a t.action t.parameters with
  | ok p => simp [BaseAgent.executeTaskWith, h]
  | error e =>
      refine ⟨Or.inr (by simp [BaseAgent.executeTaskWith, h]), ?_⟩
      simp only [BaseAgent.executeTaskWith, h]
      constructor
      · intro hsome
        rw [hres] at hsome
        simp at hsome
      · intro hst
        exact absurd hst (by decide)

/-- Witness for C3 (amended) at a concrete researcher and a fresh
pending task under the concrete handler dispatch. -/
theorem executeTask_terminal_status_witness :
    (pendingTask "researcher_1" "gather_data").status = "pending" ∧
    (pendingTask "researcher_1" "gather_data").result = none ∧
    ((BaseAgent.executeTaskWith Agent.performAction (ResearchAgent.init "researcher_1")
        (pendingTask "researcher_1" "gather_data")).task.status = "completed" ∨
      (BaseAgent.executeTaskWith Agent.performAction (ResearchAgent.init "researcher_1")
        (pendingTask "researcher_1" "gather_data")).task.status = "failed") :=
  ⟨rfl, rfl,
    (executeTask_terminal_status Agent.performAction
      (ResearchAgent.init "researcher_1")
      (pendingTask "researcher_1" "gather_data") rfl rfl).1⟩

/-- C4: dispatching a task whose `agent_id` is not a key of the
registry's agents map returns the failed outcome
`\x7b'status': 'failed', 'error': 'Agent not found'\x7d`, leaves the task
untouched (so a pending task stays `"pending"`), appends nothing to the
registry's task log `task_queue`, and leaves the registry — hence every
agent in it — unchanged. -/
theorem dispatch_unknown_agent (r : AgentRegistry) (t : Task)
    (habs : lookupAgent r.agents t.agent_id = none)
    (hp : t.status = "pending") :
    (r.executeTask t).1
      = [("status", Value.vStr "failed"), ("error", Value.vStr "Agent not found")] ∧
    (r.executeTask t).2.1 = r ∧
    (r.executeTask t).2.1.task_queue = r.task_queue ∧
    (r.executeTask t).2.2 = t ∧
    (r.executeTask t).2.2.status = "pending" := by
  simp [AgentRegistry.executeTask, habs, hp]

/-- Witness for C4 on the empty registry and a task addressed to a
nonexistent agent. -/
theorem dispatch_unknown_agent_witness :
    lookupAgent AgentRegistry.init.agents (pendingTask "ghost" "gather_data").agent_id = none ∧
    (pendingTask "ghost" "gather_data").status = "pending" ∧
    (AgentRegistry.init.executeTask (pendingTask "ghost" "gather_data")).2.2.status = "pending" :=
  ⟨rfl, rfl,
    (dispatch_unknown_agent AgentRegistry.init
      (pendingTask "ghost" "gather_data") rfl rfl).2.2.2.2⟩

/-- C5: `create_agent` raises (`ValueError`, modelled as `Except.error`)
exactly when the kind string is none of `"researcher"`, `"analyzer"`,
`"planner"`, `"executor"`, and on that path returns the registry
unchanged, modifying no existing agent or entry; for a recognised kind it
builds the matching variant with the freshly generated id
`<kind>_<fresh>`, registers it under that id (so it is found in the
agents map afterwards) and returns it. -/
theorem createAgent_validates_kind (r : AgentRegistry) (kind fresh : String) :
    ((kind = "researcher" ∨ kind = "analyzer" ∨ kind = "planner" ∨ kind = "executor") →
      ∃ a, r.createAgent kind fresh = (Except.ok a, r.registerAgent a) ∧
        a.agent_id = kind ++ "_" ++ fresh ∧
        a.agent_type.value = kind ∧
        a = BaseAgent.init (kind ++ "_" ++ fresh) a.agent_type ∧
        lookupAgent (r.createAgent kind fresh).2.agents (kind ++ "_" ++ fresh) = some a) ∧
    (kind ≠ "researcher" → kind ≠ "analyzer" → kind ≠ "planner" → kind ≠ "executor" →
      r.createAgent kind fresh
        = (Except.error ("Unknown agent type: " ++ kind), r)) := by
  constructor
  · rintro (h | h | h | h) <;> subst h <;>
      refine ⟨_, rfl, rfl, rfl, rfl, ?_⟩ <;>
      simp [AgentRegistry.createAgent, AgentRegistry.registerAgent,
        ResearchAgent.init, AnalysisAgent.init, PlanningAgent.init,
        ExecutionAgent.init, BaseAgent.init, lookupAgent_updateAgent_self]
  · intro h1 h2 h3 h4
    simp [AgentRegistry.createAgent, h1, h2, h3, h4]

/-- Witness for C5: a recognised kind is created and registered, an
unknown kind is rejected with the registry unchanged. -/
theorem createAgent_validates_kind_witness :
    (∃ a, AgentRegistry.init.createAgent "researcher" "abc12345"
        = (Except.ok a, AgentRegistry.init.registerAgent a) ∧
      a.agent_id = "researcher" ++ "_" ++ "abc12345" ∧
      a.agent_type.value = "researcher" ∧
      a = BaseAgent.init ("researcher" ++ "_" ++ "abc12345") a.agent_type ∧
      lookupAgent (AgentRegistry.init.createAgent "researcher" "abc12345").2.agents
          ("researcher" ++ "_" ++ "abc12345") = some a) ∧
    AgentRegistry.init.createAgent "wizard" "abc12345"
      = (Except.error ("Unknown agent type: " ++ "wizard"), AgentRegistry.init) :=
  ⟨(createAgent_validates_kind AgentRegistry.init "researcher" "abc12345").1
      (Or.inl rfl),
    (createAgent_validates_kind AgentRegistry.init "wizard" "abc12345").2
      (by decide) (by decide) (by decide) (by decide)⟩

/-- C6: `send_message` returns true iff `message.receiver_id` is a key
of the agents map; on `false` the registry (hence every agent's queue) is
unchanged; on `true` the receiving agent's queue has grown by exactly the
routed message, and every other key still maps to the agent it mapped to
before.  The `RegistryWF` hypothesis (each entry keyed by its own agent's
id) is the invariant `register_agent` maintains — see
`registerAgent_preserves_wf`. -/
theorem sendMessage_routes_iff_known (r : AgentRegistry) (m : Message)
    (hwf : RegistryWF r) :
    ((r.sendMessage m).1 = true ↔ (lookupAgent r.agents m.receiver_id).isSome = true) ∧
    (lookupAgent r.agents m.receiver_id = none → (r.sendMessage m).2 = r) ∧
    (∀ rec, lookupAgent r.agents m.receiver_id = some rec →
      (r.sendMessage m).1 = true ∧
      lookupAgent (r.sendMessage m).2.agents m.receiver_id
        = some { rec with message_queue := rec.message_queue ++ [m] } ∧
      (∀ k, k ≠ m.receiver_id →
        lookupAgent (r.sendMessage m).2.agents k = lookupAgent r.agents k)) := by
  cases hl : lookupAgent r.agents m.receiver_id with
  | none =>
      refine ⟨by simp [AgentRegistry.sendMessage, hl], fun _ => by simp [AgentRegistry.sendMessage, hl], ?_⟩
      intro rec hrec
      exact absurd hrec (by simp)
  | some receiver =>
      have hid : receiver.agent_id = m.receiver_id :=
        hwf (m.receiver_id, receiver) (lookupAgent_mem r.agents m.receiver_id receiver hl)
      refine ⟨by simp [AgentRegistry.sendMessage, hl], fun hn => absurd hn (by simp), ?_⟩
      intro rec hrec
      cases hrec
      refine ⟨by simp [AgentRegistry.sendMessage, hl], ?_, ?_⟩
      · simp [AgentRegistry.sendMessage, hl, Agent.receiveMessage, hid,
          lookupAgent_updateAgent_self]
      · intro k hk
        simp [AgentRegistry.sendMessage, hl,
          lookupAgent_updateAgent_other r.agents m.receiver_id k _ hk]

/-- Witness for C6 on a one-agent registry and a message addressed to
that agent. -/
theorem sendMessage_routes_iff_known_witness :
    RegistryWF sampleRegistry ∧
    (sampleRegistry.sendMessage (msgTo "researcher_1")).1 = true :=
  have hwf : RegistryWF sampleRegistry := by
    intro p hp
    simp [sampleRegistry, AgentRegistry.init, AgentRegistry.registerAgent,
      updateAgent] at hp
    rw [hp]
  ⟨hwf,
    (sendMessage_routes_iff_known sampleRegistry (msgTo "researcher_1") hwf).1.mpr rfl⟩

/-- C8: an action name outside a variant's vocabulary is not an error:
the dispatch table falls through to the soft result
`\x7b'action': <action>, 'status': 'unknown_action'\x7d`, `execute_task`
returns a success outcome carrying it, the task ends `"completed"`, and
the task is recorded in the agent's `task_history`. -/
theorem unknown_action_soft_result (a : Agent) (t : Task)
    (h : t.action ∉ Agent.vocabulary a.agent_type) :
    Agent.performAction a t.action t.parameters
      = Except.ok ([("action", Value.vStr t.action), ("status", Value.vStr "unknown_action")], a) ∧
    (a.executeTask t).outcome
      = [("status", Value.vStr "success"),
         ("result", Value.vDict [("action", Value.vStr t.action), ("status", Value.vStr "unknown_action")])] ∧
    (a.executeTask t).task.status = "completed" ∧
    (a.executeTask t).agent.task_history
      = a.task_history ++ [(a.executeTask t).task] := by
  obtain ⟨i, ty, mq, kb, th, ia, ds, ec⟩ := a
  cases ty <;> simp only [Agent.vocabulary, List.mem_singleton] at h <;>
    simp [Agent.executeTask, BaseAgent.executeTaskWith, Agent.performAction,
      ResearchAgent.performAction, AnalysisAgent.performAction,
      PlanningAgent.performAction, ExecutionAgent.performAction, h]

/-- Witness for C8: a researcher asked to `"dance"`. -/
theorem unknown_action_soft_result_witness :
    (pendingTask "researcher_1" "dance").action
        ∉ Agent.vocabulary (ResearchAgent.init "researcher_1").agent_type ∧
    ((ResearchAgent.init "researcher_1").executeTask
        (pendingTask "researcher_1" "dance")).task.status = "completed" :=
  ⟨by decide,
    (unknown_action_soft_result (ResearchAgent.init "researcher_1")
      (pendingTask "researcher_1" "dance") (by decide)).2.2.1⟩

end MultiAgent
